import Mathlib

/-!
Shallow embedding of the Ruggine chat server core: the SQLite-backed store
(`src/database.rs`), the protocol message enum (`src/protocol.rs`), and the
per-connection request handler with its session registry and fan-out loop
(`src/bin/server.rs`).

Identifiers (UUID strings in the source) are modelled as strings drawn from a
fresh-id counter; timestamps (RFC3339 strings, compared lexicographically by
SQLite `ORDER BY`, which coincides with chronological order for this fixed
format) are modelled as naturals advanced by a clock counter.  Fallible
database calls return `Except String`, mirroring `Result<_, Box<dyn Error>>`.
-/

namespace Ruggine

/-- Row of the `users` table. -/
structure UserRow where
  id : String
  username : String
  passwordHash : String
  createdAt : Nat
deriving Repr, DecidableEq

/-- Row of the `groups` table. -/
structure GroupRow where
  id : String
  name : String
  creatorId : String
  createdAt : Nat
deriving Repr, DecidableEq

/-- Row of the `group_memberships` table (UNIQUE(group_id, user_id)). -/
structure MembershipRow where
  id : String
  groupId : String
  userId : String
  joinedAt : Nat
deriving Repr, DecidableEq

/-- Row of the `messages` table. -/
structure MessageRow where
  id : String
  groupId : String
  userId : String
  content : String
  sentAt : Nat
deriving Repr, DecidableEq

/-- Row of the `group_departures` table (UNIQUE(group_id, user_id)). -/
structure DepartureRow where
  id : String
  groupId : String
  userId : String
  leftAt : Nat
deriving Repr, DecidableEq

/-- The persistent store (`Database` in `src/database.rs`), plus a supply of
fresh identifiers standing for `Uuid::new_v4` and a logical clock standing
for `Utc::now`. -/
structure Db where
  users : List UserRow
  groups : List GroupRow
  memberships : List MembershipRow
  messages : List MessageRow
  departures : List DepartureRow
  nextId : Nat
  clock : Nat
deriving Repr, DecidableEq

/-- Fresh identifier supply, standing for `Uuid::new_v4().to_string()`. -/
def freshId (n : Nat) : String := "id" ++ toString n

/-- Query `SELECT id FROM groups WHERE name = ?1` (groups.name is UNIQUE). -/
def findGroupId (db : Db) (group_name : String) : Option String :=
  (db.groups.find? (fun g => g.name == group_name)).map (fun g => g.id)

/-- Query `SELECT id FROM users WHERE username = ?1` (users.username is UNIQUE). -/
def find_user_id (db : Db) (username : String) : Option String :=
  (db.users.find? (fun u => u.username == username)).map (fun u => u.id)

/-- Query `SELECT COUNT(*) FROM group_memberships WHERE group_id = ?1 AND user_id = ?2`. -/
def memberCount (db : Db) (group_id user_id : String) : Nat :=
  db.memberships.countP (fun m => m.groupId == group_id && m.userId == user_id)

/-- Query `SELECT COUNT(*) FROM group_departures WHERE group_id = ?1 AND user_id = ?2`. -/
def departureCount (db : Db) (group_id user_id : String) : Nat :=
  db.departures.countP (fun d => d.groupId == group_id && d.userId == user_id)

/-- Model of `Database::register_user`: reject duplicate usernames, otherwise insert a
fresh user row and return its id.  (bcrypt hashing is external; the hash is
modelled by the password itself, which no claim inspects.) -/
def register_user (db : Db) (username password : String) :
    Except String (Db × String) :=
  if db.users.any (fun u => u.username == username) then
    .error ("Username already exists")
  else
    let user_id := freshId db.nextId
    .ok ({ db with
            users := db.users ++ [⟨user_id, username, password, db.clock⟩],
            nextId := db.nextId + 1,
            clock := db.clock + 1 }, user_id)

/-- Model of `Database::login_user`: look the username up and verify the password
(bcrypt `verify` modelled as equality with the stored hash). -/
def login_user (db : Db) (username password : String) : Except String String :=
  match db.users.find? (fun u => u.username == username) with
  | some u =>
      if password == u.passwordHash then .ok u.id
      else .error ("Invalid password")
  | none => .error ("User not found")

/-- Model of `Database::create_group`: insert the group (groups.name is UNIQUE) and add
the creator as first member. -/
def create_group (db : Db) (name creator_id : String) : Except String Db :=
  if db.groups.any (fun g => g.name == name) then
    .error ("UNIQUE constraint failed: groups.name")
  else
    let group_id := freshId db.nextId
    .ok { db with
          groups := db.groups ++ [⟨group_id, name, creator_id, db.clock⟩],
          memberships := db.memberships ++
            [⟨freshId (db.nextId + 1), group_id, creator_id, db.clock + 1⟩],
          nextId := db.nextId + 2,
          clock := db.clock + 2 }

/-- Model of `Database::join_group`: already a member is an early success; a recorded
departure blocks the rejoin; otherwise insert the membership. -/
def join_group (db : Db) (group_name user_id : String) : Except String Db :=
  match findGroupId db group_name with
  | none => .error ("Group not found")
  | some group_id =>
      if memberCount db group_id user_id > 0 then
        .ok db
      else if departureCount db group_id user_id > 0 then
        .error ("You cannot rejoin a group you have left. You need to be invited by another member.")
      else
        .ok { db with
              memberships := db.memberships ++
                [⟨freshId db.nextId, group_id, user_id, db.clock⟩],
              nextId := db.nextId + 1,
              clock := db.clock + 1 }

/-- Model of `Database::invite_user_to_group`: the inviter must be a member, the invitee
must exist and not already be a member; any departure record of the invitee
for this group is deleted and the membership inserted. -/
def invite_user_to_group (db : Db) (group_name username inviter_id : String) :
    Except String Db :=
  match findGroupId db group_name with
  | none => .error ("Group not found")
  | some group_id =>
      if memberCount db group_id inviter_id = 0 then
        .error ("You are not a member of this group")
      else
        match find_user_id db username with
        | none => .error ("User not found")
        | some user_id =>
            if memberCount db group_id user_id > 0 then
              .error ("User is already in the group")
            else
              .ok { db with
                    departures := db.departures.filter
                      (fun d => !(d.groupId == group_id && d.userId == user_id)),
                    memberships := db.memberships ++
                      [⟨freshId db.nextId, group_id, user_id, db.clock⟩],
                    nextId := db.nextId + 1,
                    clock := db.clock + 1 }

/-- Model of `Database::leave_group`: delete the membership (failing when none was
deleted) and record the departure (`INSERT OR REPLACE` on the
UNIQUE(group_id, user_id) key). -/
def leave_group (db : Db) (group_name user_id : String) : Except String Db :=
  match findGroupId db group_name with
  | none => .error ("Group not found")
  | some group_id =>
      if memberCount db group_id user_id = 0 then
        .error ("You are not a member of this group")
      else
        .ok { db with
              memberships := db.memberships.filter
                (fun m => !(m.groupId == group_id && m.userId == user_id)),
              departures := (db.departures.filter
                  (fun d => !(d.groupId == group_id && d.userId == user_id))) ++
                [⟨freshId db.nextId, group_id, user_id, db.clock⟩],
              nextId := db.nextId + 1,
              clock := db.clock + 1 }

/-- Model of `Database::get_all_users`: `SELECT username FROM users ORDER BY username`. -/
def get_all_users (db : Db) : List String :=
  List.insertionSort (fun a b => a ≤ b) (db.users.map (fun u => u.username))

/-- Model of `Database::get_group_members`: usernames of the group's members, ordered
by username. -/
def get_group_members (db : Db) (group_name : String) :
    Except String (List String) :=
  match findGroupId db group_name with
  | none => .error ("Group not found")
  | some group_id =>
      .ok (List.insertionSort (fun a b => a ≤ b)
        ((db.users.filter (fun u => db.memberships.any
            (fun m => m.groupId == group_id && m.userId == u.id))).map
          (fun u => u.username)))

/-- Model of `Database::get_group_id`, with its distinct error text. -/
def get_group_id (db : Db) (group_name : String) : Except String String :=
  match findGroupId db group_name with
  | none => .error ("Group '" ++ group_name ++ "' not found")
  | some group_id => .ok group_id

/-- Model of `Database::send_message`: membership-gated append; returns the vector
`[message_id, group_id, user_id, content, sent_at]` as the source does. -/
def send_message (db : Db) (group_name user_id content : String) :
    Except String (Db × List String) :=
  match findGroupId db group_name with
  | none => .error ("Group not found")
  | some group_id =>
      if memberCount db group_id user_id = 0 then
        .error ("You are not a member of this group")
      else
        let message_id := freshId db.nextId
        .ok ({ db with
                messages := db.messages ++
                  [⟨message_id, group_id, user_id, content, db.clock⟩],
                nextId := db.nextId + 1,
                clock := db.clock + 1 },
             [message_id, group_id, user_id, content, toString db.clock])

/-- Structure `ChatMessage` as rendered to clients (`common.rs`): id, content, author
username, timestamp. -/
structure ChatMessage where
  id : String
  content : String
  username : String
  timestamp : Nat
deriving Repr, DecidableEq

/-- The relation behind `ORDER BY m.sent_at DESC`: newer (or equal) first. -/
def recentOrd (a b : ChatMessage) : Prop := b.timestamp ≤ a.timestamp

instance : DecidableRel recentOrd := fun a b => Nat.decLe b.timestamp a.timestamp

instance : IsTotal ChatMessage recentOrd :=
  ⟨fun a b => Nat.le_total b.timestamp a.timestamp⟩

instance : IsTrans ChatMessage recentOrd :=
  ⟨fun _ _ _ hab hbc => Nat.le_trans hbc hab⟩

/-- The rows produced by `FROM messages m JOIN users u ON m.user_id = u.id
WHERE m.group_id = ?1` in `get_recent_messages` (inner join: messages whose
author is missing from `users` are dropped). -/
def joinedRows (db : Db) (group_id : String) : List ChatMessage :=
  (db.messages.filter (fun m => m.groupId == group_id)).filterMap
    (fun m => (db.users.find? (fun u => u.id == m.userId)).map
      (fun u => ⟨m.id, m.content, u.username, m.sentAt⟩))

/-- Model of `Database::get_recent_messages`: join, order newest-first, `LIMIT ?2`,
then reverse so that the oldest of the window comes first. -/
def get_recent_messages (db : Db) (group_name : String) (limit : Nat) :
    Except String (List ChatMessage) :=
  match findGroupId db group_name with
  | none => .error ("Group not found")
  | some group_id =>
      .ok (((List.insertionSort recentOrd (joinedRows db group_id)).take
        limit).reverse)

/-- Structure `Group` as rendered to clients (`common.rs`). -/
structure Group where
  id : String
  name : String
  members : List String
  creatorId : String
  createdAt : String
deriving Repr, DecidableEq

/-- Model of `Database::get_user_groups`: groups joined with the caller's memberships;
`members` is left empty by the source. -/
def get_user_groups (db : Db) (user_id : String) : List Group :=
  (db.groups.filter (fun g => db.memberships.any
      (fun m => m.groupId == g.id && m.userId == user_id))).map
    (fun g => ⟨g.id, g.name, [], g.creatorId, toString g.createdAt⟩)

/-- Structure `Message` of `common.rs`: built by `Message::new` in the SendMessage branch. -/
structure Msg where
  id : String
  sender : String
  groupId : String
  content : String
  timestamp : Nat
deriving Repr, DecidableEq

/-- Wire enum `ProtocolMessage` of `src/protocol.rs`, requests and responses. -/
inductive ProtocolMessage where
  | Register (username password : String)
  | Login (username password : String)
  | CreateGroup (name : String)
  | JoinGroup (group_name : String)
  | LeaveGroup (group_name : String)
  | QuitGroup
  | InviteUser (username group_name : String)
  | SendMessage (content group_name : String)
  | ListGroups
  | ListUsers
  | ListGroupUsers (group_name : String)
  | GoHome
  | Help
  | Quit
  | AuthResult (success : Bool) (user_id : Option String) (message : String)
  | GroupCreated (group : Group)
  | GroupJoined (group : Group) (recent_messages : List ChatMessage)
  | GroupLeft
  | GroupQuit
  | UserInvited (username : String)
  | MessageReceived (message : Msg) (recent_messages : List ChatMessage)
  | ReloadMessages (recent_messages : List ChatMessage)
  | GroupListResponse (groups : List Group)
  | UserListResponse (users : List String)
  | Error (message : String)
  | Ok (message : String)
  | Ping
  | Pong
deriving Repr, DecidableEq

/-- One entry of the `connected_users` map: the cloned socket handle (a
socket is identified by a number) and the session's current group id. -/
structure Sess where
  sock : Nat
  group : Option String
deriving Repr, DecidableEq

/-- The `connected_users` registry: `HashMap<String, (TcpStream,
Option<String>)>`, modelled as an association list with unique keys. -/
abbrev Registry := List (String × Sess)

/-- Operation `HashMap::insert`: install or replace the entry for `uid`. -/
def regUpsert (reg : Registry) (uid : String) (s : Sess) : Registry :=
  (uid, s) :: reg.filter (fun e => !(e.1 == uid))

/-- Operation `HashMap::remove`. -/
def regRemove (reg : Registry) (uid : String) : Registry :=
  reg.filter (fun e => !(e.1 == uid))

/-- Operation `get_mut(uid)` followed by `*current_group = g`: update the group of the
session of `uid`, if present. -/
def regSetGroup (reg : Registry) (uid : String) (g : Option String) : Registry :=
  reg.map (fun e => if e.1 == uid then (e.1, ⟨e.2.sock, g⟩) else e)

/-- Operation `HashMap::get`. -/
def regLookup (reg : Registry) (uid : String) : Option Sess :=
  (reg.find? (fun e => e.1 == uid)).map (fun e => e.2)

/-- The server state shared across connections: the database and the
`connected_users` registry. -/
structure SrvState where
  db : Db
  registry : Registry
deriving Repr, DecidableEq

/-- The member sessions that the fan-out loop of the SendMessage branch
writes to: currently viewing `this_group_id`, sender excluded by user id. -/
def fanoutTargets (reg : Registry) (this_group_id sender_id : String) : Registry :=
  reg.filter (fun e => e.2.group == some this_group_id && !(e.1 == sender_id))

/-- Model of `process_message` of `src/bin/server.rs`: given a decoded request, the
shared state, the connection's `current_user_id` and its own socket, produce
the response, the new shared state, the new `current_user_id`, and the list
of fan-out writes `(destination socket, payload)` performed on other sockets. -/
def process_message (msg : ProtocolMessage) (st : SrvState)
    (cur : Option String) (ownSock : Nat) :
    ProtocolMessage × SrvState × Option String × List (Nat × ProtocolMessage) :=
  match msg with
  | .Register username password =>
      match register_user st.db username password with
      | .ok (db', user_id) =>
          (.AuthResult true (some user_id) ("Registration successful!"),
           ⟨db', regUpsert st.registry user_id ⟨ownSock, none⟩⟩, some user_id, [])
      | .error e =>
          (.AuthResult false none ("Registration failed: " ++ e), st, cur, [])
  | .Login username password =>
      match login_user st.db username password with
      | .ok user_id =>
          (.AuthResult true (some user_id) ("Login successful!"),
           ⟨st.db, regUpsert st.registry user_id ⟨ownSock, none⟩⟩, some user_id, [])
      | .error e =>
          (.AuthResult false none ("Login failed: " ++ e), st, cur, [])
  | .CreateGroup name =>
      match cur with
      | some user_id =>
          match create_group st.db name user_id with
          | .ok db' =>
              (.Ok ("Group '" ++ name ++ "' created successfully!"),
               ⟨db', st.registry⟩, cur, [])
          | .error e => (.Error ("Failed to create group: " ++ e), st, cur, [])
      | none => (.Error ("Not authenticated"), st, cur, [])
  | .JoinGroup group_name =>
      match cur with
      | some user_id =>
          match join_group st.db group_name user_id with
          | .ok db' =>
              let reg' := match get_group_id db' group_name with
                | .ok group_id => regSetGroup st.registry user_id (some group_id)
                | .error _ => st.registry
              let recent :=
                (get_recent_messages db' group_name 20).toOption.getD []
              (.GroupJoined ⟨"temp_id", group_name, [], "", ""⟩ recent,
               ⟨db', reg'⟩, cur, [])
          | .error e => (.Error ("Failed to join group: " ++ e), st, cur, [])
      | none => (.Error ("Not authenticated"), st, cur, [])
  | .ListGroups =>
      match cur with
      | some user_id =>
          (.GroupListResponse (get_user_groups st.db user_id), st, cur, [])
      | none => (.Error ("Not authenticated"), st, cur, [])
  | .ListUsers =>
      (.UserListResponse (get_all_users st.db), st, cur, [])
  | .ListGroupUsers group_name =>
      match cur with
      | some _ =>
          match get_group_members st.db group_name with
          | .ok users => (.UserListResponse users, st, cur, [])
          | .error e =>
              (.Error ("Failed to get group members: " ++ e), st, cur, [])
      | none => (.Error ("Not authenticated"), st, cur, [])
  | .InviteUser username group_name =>
      match cur with
      | some user_id =>
          match invite_user_to_group st.db group_name username user_id with
          | .ok db' =>
              (.Ok ("User '" ++ username ++ "' invited to group '" ++
                 group_name ++ "'!"), ⟨db', st.registry⟩, cur, [])
          | .error e => (.Error ("Failed to invite user: " ++ e), st, cur, [])
      | none => (.Error ("Not authenticated"), st, cur, [])
  | .LeaveGroup group_name =>
      match cur with
      | some user_id =>
          match leave_group st.db group_name user_id with
          | .ok db' =>
              (.Ok ("Left group '" ++ group_name ++ "'!"),
               ⟨db', regSetGroup st.registry user_id none⟩, cur, [])
          | .error e => (.Error ("Failed to leave group: " ++ e), st, cur, [])
      | none => (.Error ("Not authenticated"), st, cur, [])
  | .QuitGroup =>
      match cur with
      | some user_id =>
          (.Ok ("Left group and returned to home!"),
           ⟨st.db, regSetGroup st.registry user_id none⟩, cur, [])
      | none => (.Error ("Not authenticated"), st, cur, [])
  | .GoHome =>
      match cur with
      | some user_id =>
          (.Ok ("Returned to home"),
           ⟨st.db, regSetGroup st.registry user_id none⟩, cur, [])
      | none => (.Error ("Not authenticated"), st, cur, [])
  | .Quit =>
      match cur with
      | some user_id =>
          (.Ok ("Goodbye!"), ⟨st.db, regRemove st.registry user_id⟩, none, [])
      | none => (.Ok ("Goodbye!"), st, cur, [])
  | .SendMessage content group_name =>
      match cur with
      | some user_id =>
          match get_group_id st.db group_name with
          | .error e => (.Error ("Failed to get group ID: " ++ e), st, cur, [])
          | .ok this_group_id =>
              match send_message st.db group_name user_id content with
              | .ok (db', parts) =>
                  let recent :=
                    (get_recent_messages db' group_name 20).toOption.getD []
                  let effs := (fanoutTargets st.registry this_group_id
                      user_id).map
                    (fun e => (e.2.sock, ProtocolMessage.ReloadMessages recent))
                  (.MessageReceived
                     ⟨parts.getD 0 (""), user_id, parts.getD 1 (""), content,
                      db'.clock⟩ recent,
                   ⟨db', st.registry⟩, cur, effs)
              | .error e =>
                  (.Error ("Failed to send message: " ++ e), st, cur, [])
      | none => (.Error ("Not authenticated"), st, cur, [])
  | _ => (.Error ("Command not implemented yet"), st, cur, [])

/-- A byte-stream output of the handler: a write on the connection's own
socket, or a fan-out write on another session's socket. -/
inductive Out where
  | own (m : ProtocolMessage)
  | peer (sock : Nat) (m : ProtocolMessage)
deriving Repr, DecidableEq

/-- Model of `handle_client` of `src/bin/server.rs`: read lines until EOF; a line that
fails to decode is skipped silently; otherwise process it, emit the fan-out
writes and then the single response on the own socket, and keep reading.  At
EOF the session of the authenticated user, if any, is removed.  `dec` stands
for `ProtocolMessage::from_wire_format` (the serde decoder, external code). -/
def handle_client (dec : String → Option ProtocolMessage) (ownSock : Nat) :
    List String → SrvState → Option String → List Out × SrvState
  | [], st, cur =>
      match cur with
      | some user_id => ([], ⟨st.db, regRemove st.registry user_id⟩)
      | none => ([], st)
  | line :: rest, st, cur =>
      match dec line with
      | none => handle_client dec ownSock rest st cur
      | some msg =>
          let r := process_message msg st cur ownSock
          let k := handle_client dec ownSock rest r.2.1 r.2.2.1
          (r.2.2.2.map (fun e => Out.peer e.1 e.2) ++ [Out.own r.1] ++ k.1, k.2)

/-- Events of the fan-out section of the SendMessage branch: taking the
`connected_users` lock, a socket write, dropping the lock. -/
inductive FanoutEvent where
  | acquire
  | write (sock : Nat)
  | release
deriving Repr, DecidableEq

/-- The event trace of lines 434-451 of `src/bin/server.rs`: the mutex guard
from `connected_users.lock().unwrap()` lives for the whole `for` loop, and
every write to a recipient's socket happens inside it. -/
def fanoutTrace (reg : Registry) (this_group_id sender_id : String) :
    List FanoutEvent :=
  [FanoutEvent.acquire] ++
    (fanoutTargets reg this_group_id sender_id).map
      (fun e => FanoutEvent.write e.2.sock) ++
    [FanoutEvent.release]

/-- Does some socket write occur while the lock is held?  `held` is the lock
state entering the trace. -/
def writesWhileHeld : List FanoutEvent → Bool → Bool
  | [], _ => false
  | .acquire :: es, _ => writesWhileHeld es true
  | .release :: es, _ => writesWhileHeld es false
  | .write _ :: es, held => held || writesWhileHeld es held

/-- Does some socket write occur while the lock is NOT held?  `held` is the
lock state entering the trace. -/
def writesWhileFree : List FanoutEvent → Bool → Bool
  | [], _ => false
  | .acquire :: es, _ => writesWhileFree es true
  | .release :: es, _ => writesWhileFree es false
  | .write _ :: es, held => !held || writesWhileFree es held

/-- The request kinds gated on authentication by `process_message`. -/
def requiresAuth : ProtocolMessage → Bool
  | .CreateGroup _ => true
  | .JoinGroup _ => true
  | .LeaveGroup _ => true
  | .InviteUser _ _ => true
  | .SendMessage _ _ => true
  | .ListGroups => true
  | .ListGroupUsers _ => true
  | .GoHome => true
  | _ => false

/-- Keys of the registry are pairwise distinct (the `HashMap` invariant). -/
def nodupKeys (reg : Registry) : Prop := (reg.map (fun e => e.1)).Nodup

/-! Concrete fixtures used by witnesses and counterexamples. -/

/-- An empty store. -/
def dbEmpty : Db := ⟨[], [], [], [], [], 0, 0⟩

/-- Three users; `alice` and `bob` are members of group `team`; three
messages with timestamps 5, 3, 9. -/
def dbEx : Db :=
  { users := [⟨"u1", "alice", "pw1", 0⟩, ⟨"u2", "bob", "pw2", 1⟩,
              ⟨"u3", "carl", "pw3", 2⟩],
    groups := [⟨"g1", "team", "u1", 3⟩],
    memberships := [⟨"m1", "g1", "u1", 4⟩, ⟨"m2", "g1", "u2", 5⟩],
    messages := [⟨"msg1", "g1", "u1", "hello", 5⟩,
                 ⟨"msg2", "g1", "u2", "hey", 3⟩,
                 ⟨"msg3", "g1", "u1", "again", 9⟩],
    departures := [],
    nextId := 10,
    clock := 20 }

/-- Registry matching `dbEx`: `alice` and `bob` are viewing `g1`, `carl` is
connected but at home. -/
def regEx : Registry :=
  [("u1", ⟨1, some ("g1")⟩), ("u2", ⟨2, some ("g1")⟩), ("u3", ⟨3, none⟩)]

/-- Server state for the fan-out witness. -/
def stEx : SrvState := ⟨dbEx, regEx⟩

/-- The store after `alice` sends `hi` to `team` in `dbEx`. -/
def dbExSent : Db :=
  { dbEx with
    messages := dbEx.messages ++ [⟨"id10", "g1", "u1", "hi", 20⟩],
    nextId := 11,
    clock := 21 }

/-- A store where `bob` has left group `team` (departure recorded, no
membership). -/
def dbLeft : Db :=
  { users := [⟨"u1", "alice", "pw1", 0⟩, ⟨"u2", "bob", "pw2", 1⟩],
    groups := [⟨"g1", "team", "u1", 2⟩],
    memberships := [⟨"m1", "g1", "u1", 3⟩],
    messages := [],
    departures := [⟨"d1", "g1", "u2", 4⟩],
    nextId := 5,
    clock := 6 }

/-- The store produced by `invite_user_to_group dbLeft "team" "bob" "u1"`:
the departure record is deleted and the membership installed. -/
def dbLeftInvited : Db :=
  { users := [⟨"u1", "alice", "pw1", 0⟩, ⟨"u2", "bob", "pw2", 1⟩],
    groups := [⟨"g1", "team", "u1", 2⟩],
    memberships := [⟨"m1", "g1", "u1", 3⟩, ⟨"id5", "g1", "u2", 6⟩],
    messages := [],
    departures := [],
    nextId := 6,
    clock := 7 }

/-- A store where `bob` is simultaneously a member of `team` and has a stale
departure record, exercising the order of the checks in `join_group`. -/
def dbBoth : Db :=
  { dbLeft with
    memberships := [⟨"m1", "g1", "u1", 3⟩, ⟨"m2", "g1", "u2", 4⟩],
    departures := [⟨"d1", "g1", "u2", 4⟩] }

/-- Decoder fixture: `l` decodes to `ListUsers`, everything else fails. -/
def decL (s : String) : Option ProtocolMessage :=
  if s == "l" then some ProtocolMessage.ListUsers else none

/-- Decoder fixture: `q` decodes to `Quit`, `l` to `ListUsers`, everything
else fails. -/
def decQL (s : String) : Option ProtocolMessage :=
  if s == "q" then some ProtocolMessage.Quit
  else if s == "l" then some ProtocolMessage.ListUsers
  else none

/-- Registry fixture for the fan-out lock trace: one connected member of
`g1` other than the sender `u1`. -/
def regOneOther : Registry := [("u2", ⟨2, some ("g1")⟩)]

/-- The result vector of `send_message` in the C1 witness. -/
def partsEx : List String := ["id10", "g1", "u1", "hi", "20"]

/-- The window returned by the C3 witness call. -/
def recentEx : List ChatMessage :=
  [⟨"msg1", "hello", "alice", 5⟩, ⟨"msg3", "again", "alice", 9⟩]

/-- Registry fixture for the C6 witness: one authenticated session. -/
def regQuit : Registry := [("u1", ⟨5, none⟩)]

end Ruggine

namespace Ruggine

/-- C2: every request kind gated on authentication, processed while
`current_user_id` is `None`, answers `Error "Not authenticated"` and leaves
the database, the registry and the authentication state untouched, emitting
no socket write. -/
theorem C2_unauthenticated_requests_rejected
    (m : ProtocolMessage) (st : SrvState) (o : Nat)
    (h : requiresAuth m = true) :
    process_message m st none o =
      (.Error ("Not authenticated"), st, none, []) := by
  cases m <;> first
    | rfl
    | simp [requiresAuth] at h

/-- C2 witness: an unauthenticated `GoHome` on a concrete state is rejected
without any mutation. -/
theorem C2_witness :
    requiresAuth ProtocolMessage.GoHome = true ∧
    process_message ProtocolMessage.GoHome stEx none 7 =
      (.Error ("Not authenticated"), stEx, none, []) :=
  ⟨rfl, C2_unauthenticated_requests_rejected ProtocolMessage.GoHome stEx 7 rfl⟩

/-- C9: a `ListUsers` request is answered with the full (sorted) user list
regardless of the authentication state — in particular while
unauthenticated — with no state change; the answered list is a permutation
of all stored usernames. -/
theorem C9_listusers_skips_auth (st : SrvState) (cur : Option String) (o : Nat) :
    process_message ProtocolMessage.ListUsers st cur o =
      (.UserListResponse (get_all_users st.db), st, cur, []) ∧
    (get_all_users st.db).Perm (st.db.users.map (fun u => u.username)) :=
  ⟨rfl, List.perm_insertionSort _ _⟩

/-- C10: `join_group` is an early success for a user who is already a member:
the store is returned unchanged, whatever the departure table holds. -/
theorem C10_join_group_idempotent_for_members
    (db : Db) (g uid gid : String)
    (hg : findGroupId db g = some gid)
    (hm : 0 < memberCount db gid uid) :
    join_group db g uid = .ok db := by
  unfold join_group
  rw [hg]
  exact if_pos hm

/-- C10 witness: `bob` is both a member of `team` and has a departure record;
`join_group` still succeeds without touching the store, showing the member
check fires before the departure check. -/
theorem C10_witness :
    0 < departureCount dbBoth ("g1") ("u2") ∧
    join_group dbBoth ("team") ("u2") = .ok dbBoth :=
  ⟨by decide,
   C10_join_group_idempotent_for_members dbBoth ("team") ("u2") ("g1")
     (by decide) (by decide)⟩

/-- C4: a user with a recorded departure from a group and no current
membership cannot rejoin it — `join_group` answers the membership error; and
after a successful `invite_user_to_group` naming that user, the departure
record is gone, the membership is installed, and `join_group` succeeds
(as the early member success, leaving the store unchanged). -/
theorem C4_rejoin_lock_and_invite_unlock :
    (∀ (db : Db) (g uid gid : String),
       findGroupId db g = some gid →
       memberCount db gid uid = 0 →
       0 < departureCount db gid uid →
       join_group db g uid = .error
         ("You cannot rejoin a group you have left. You need to be invited by another member.")) ∧
    (∀ (db : Db) (g uname inviter uid : String) (db' : Db),
       invite_user_to_group db g uname inviter = .ok db' →
       find_user_id db uname = some uid →
       ∃ gid, findGroupId db' g = some gid ∧
         0 < memberCount db' gid uid ∧
         departureCount db' gid uid = 0 ∧
         join_group db' g uid = .ok db') := by
  constructor
  · intro db g uid gid hg hm hd
    simp only [join_group, hg]
    rw [if_neg (by omega), if_pos hd]
  · intro db g uname inviter uid db' hinv hu
    rcases hfg : findGroupId db g with _ | gid
    · simp only [invite_user_to_group, hfg] at hinv
      exact Except.noConfusion hinv
    · simp only [invite_user_to_group, hfg] at hinv
      by_cases hic : memberCount db gid inviter = 0
      · rw [if_pos hic] at hinv
        exact Except.noConfusion hinv
      · rw [if_neg hic] at hinv
        simp only [hu] at hinv
        by_cases hmb : memberCount db gid uid > 0
        · rw [if_pos hmb] at hinv
          exact Except.noConfusion hinv
        · rw [if_neg hmb] at hinv
          injection hinv with hdb
          subst hdb
          have hmem : 0 < memberCount
              { db with
                departures := db.departures.filter
                  (fun d => !(d.groupId == gid && d.userId == uid)),
                memberships := db.memberships ++
                  [⟨freshId db.nextId, gid, uid, db.clock⟩],
                nextId := db.nextId + 1,
                clock := db.clock + 1 } gid uid := by
            simp [memberCount, List.countP_append, List.countP_cons]
          refine ⟨gid, hfg, hmem, ?_, ?_⟩
          · refine List.countP_eq_zero.mpr ?_
            intro d hd
            rcases List.mem_filter.mp hd with ⟨_, hpd⟩
            simp only [Bool.not_eq_true'] at hpd
            simp [hpd]
          · have hfg2 : findGroupId
                { db with
                  departures := db.departures.filter
                    (fun d => !(d.groupId == gid && d.userId == uid)),
                  memberships := db.memberships ++
                    [⟨freshId db.nextId, gid, uid, db.clock⟩],
                  nextId := db.nextId + 1,
                  clock := db.clock + 1 } g = some gid := hfg
            simp only [join_group, hfg2]
            rw [if_pos hmem]

/-- C4 witness: in `dbLeft`, `bob` (who left `team`) cannot rejoin, and after
`alice` invites him the departure is cleared, the membership installed, and
`join_group` succeeds. -/
theorem C4_witness :
    join_group dbLeft ("team") ("u2") = .error
      ("You cannot rejoin a group you have left. You need to be invited by another member.") ∧
    ∃ gid, findGroupId dbLeftInvited ("team") = some gid ∧
      0 < memberCount dbLeftInvited gid ("u2") ∧
      departureCount dbLeftInvited gid ("u2") = 0 ∧
      join_group dbLeftInvited ("team") ("u2") = .ok dbLeftInvited :=
  ⟨C4_rejoin_lock_and_invite_unlock.1 dbLeft ("team") ("u2") ("g1")
     (by decide) (by decide) (by decide),
   C4_rejoin_lock_and_invite_unlock.2 dbLeft ("team") ("bob") ("u1") ("u2")
     dbLeftInvited (by rfl) (by rfl)⟩

/-- Installing or replacing an entry keeps the registry keys unique. -/
theorem nodupKeys_regUpsert (reg : Registry) (uid : String) (s : Sess)
    (h : nodupKeys reg) : nodupKeys (regUpsert reg uid s) := by
  unfold nodupKeys regUpsert
  simp only [List.map_cons, List.nodup_cons]
  constructor
  · intro hmem
    rcases List.mem_map.mp hmem with ⟨e, he, hfe⟩
    rcases List.mem_filter.mp he with ⟨_, hne⟩
    simp only [Bool.not_eq_true', beq_eq_false_iff_ne] at hne
    exact hne hfe
  · exact List.Nodup.sublist ((List.filter_sublist _).map _) h

/-- Updating a session's group field does not change the registry keys. -/
theorem regSetGroup_keys (reg : Registry) (uid : String) (g : Option String) :
    (regSetGroup reg uid g).map (fun e => e.1) = reg.map (fun e => e.1) := by
  unfold regSetGroup
  induction reg with
  | nil => rfl
  | cons e t ih =>
      simp only [List.map_cons]
      rw [ih]
      congr 1
      split <;> rfl

/-- Updating a session's group field keeps the registry keys unique. -/
theorem nodupKeys_regSetGroup (reg : Registry) (uid : String)
    (g : Option String) (h : nodupKeys reg) :
    nodupKeys (regSetGroup reg uid g) := by
  unfold nodupKeys
  rw [regSetGroup_keys]
  exact h

/-- Removing an entry keeps the registry keys unique. -/
theorem nodupKeys_regRemove (reg : Registry) (uid : String)
    (h : nodupKeys reg) : nodupKeys (regRemove reg uid) :=
  List.Nodup.sublist ((List.filter_sublist _).map _) h

/-- Lookup of a key other than the replaced one is unaffected by `regUpsert`. -/
theorem regLookup_regUpsert_ne (reg : Registry) (uid v : String) (s : Sess)
    (hv : v ≠ uid) :
    regLookup (regUpsert reg uid s) v = regLookup reg v := by
  unfold regLookup regUpsert
  rw [List.find?_cons_of_neg _ (by simp [Ne.symm hv])]
  congr 1
  have huv : (uid == v) = false := beq_eq_false_iff_ne.mpr (Ne.symm hv)
  induction reg with
  | nil => rfl
  | cons e t ih =>
      by_cases he : e.1 = uid
      · have h2 : (e.1 == v) = false := by
          rw [beq_eq_false_iff_ne, he]
          exact Ne.symm hv
        simp [List.filter_cons, List.find?_cons, he, h2, huv, ih]
      · by_cases hev : e.1 = v
        · simp [List.filter_cons, List.find?_cons, he, hev, hv, ih]
        · simp [List.filter_cons, List.find?_cons, he, hev, hv, ih]

/-- C8: the registry keeps at most one session per user id — every request
preserves key uniqueness — and a successful `Login` (resp. `Register`)
installs `(own socket, no group)` for the authenticated id via `regUpsert`,
replacing any previous session for that id without touching the entries of
other users, answering a success `AuthResult` (no error) and performing no
socket write. -/
theorem C8_registry_single_session_per_user :
    (∀ (m : ProtocolMessage) (st : SrvState) (cur : Option String) (o : Nat),
       nodupKeys st.registry →
       nodupKeys (process_message m st cur o).2.1.registry) ∧
    (∀ (st : SrvState) (cur : Option String) (o : Nat) (uname pw uid : String),
       login_user st.db uname pw = .ok uid →
       process_message (.Login uname pw) st cur o =
         (.AuthResult true (some uid) ("Login successful!"),
          ⟨st.db, regUpsert st.registry uid ⟨o, none⟩⟩, some uid, [])) ∧
    (∀ (st : SrvState) (cur : Option String) (o : Nat) (uname pw uid : String)
       (db' : Db),
       register_user st.db uname pw = .ok (db', uid) →
       process_message (.Register uname pw) st cur o =
         (.AuthResult true (some uid) ("Registration successful!"),
          ⟨db', regUpsert st.registry uid ⟨o, none⟩⟩, some uid, [])) ∧
    (∀ (reg : Registry) (uid : String) (s : Sess),
       regLookup (regUpsert reg uid s) uid = some s ∧
       ∀ v, v ≠ uid → regLookup (regUpsert reg uid s) v = regLookup reg v) := by
  refine ⟨?_, ?_, ?_, ?_⟩
  · intro m st cur o h
    cases m <;>
      simp only [process_message] <;>
      (repeat' split) <;>
      first
        | exact h
        | exact nodupKeys_regUpsert _ _ _ h
        | exact nodupKeys_regSetGroup _ _ _ h
        | exact nodupKeys_regRemove _ _ h
  · intro st cur o uname pw uid hl
    simp only [process_message, hl]
  · intro st cur o uname pw uid db' hr
    simp only [process_message, hr]
  · intro reg uid s
    refine ⟨?_, fun v hv => regLookup_regUpsert_ne reg uid v s hv⟩
    simp [regLookup, regUpsert]

/-- C8 witness: `alice` already has a session with socket 1 and a group
context; a second successful login on socket 9 replaces it with a fresh
no-group session, leaves `bob`'s entry alone, keeps keys unique, and reports
success. -/
theorem C8_witness :
    process_message (.Login ("alice") ("pw1")) stEx (some ("u9")) 9 =
      (.AuthResult true (some ("u1")) ("Login successful!"),
       ⟨stEx.db, regUpsert stEx.registry ("u1") ⟨9, none⟩⟩, some ("u1"), []) ∧
    nodupKeys (process_message (.Login ("alice") ("pw1")) stEx
      (some ("u9")) 9).2.1.registry ∧
    regLookup (regUpsert stEx.registry ("u1") ⟨9, none⟩) ("u1") =
      some ⟨9, none⟩ ∧
    (∀ v, v ≠ ("u1") →
      regLookup (regUpsert stEx.registry ("u1") ⟨9, none⟩) v =
        regLookup stEx.registry v) :=
  ⟨C8_registry_single_session_per_user.2.1 stEx (some ("u9")) 9 ("alice")
     ("pw1") ("u1") (by rfl),
   C8_registry_single_session_per_user.1 (.Login ("alice") ("pw1")) stEx
     (some ("u9")) 9 (by unfold nodupKeys; decide),
   (C8_registry_single_session_per_user.2.2.2 stEx.registry ("u1")
     ⟨9, none⟩).1,
   (C8_registry_single_session_per_user.2.2.2 stEx.registry ("u1")
     ⟨9, none⟩).2⟩

/-- C1: when a sender `S` viewing group `gid` sends a message successfully,
the fan-out writes are all `ReloadMessages` payloads, and a registered
session receives one exactly when its current group is `gid` and its user id
differs from `S` — exclusion is by user identity, not by socket. -/
theorem C1_fanout_exact_recipients
    (st : SrvState) (S gname gid content : String) (o : Nat)
    (db' : Db) (parts : List String) (s0 : Sess)
    (hsock : (st.registry.map (fun e => e.2.sock)).Nodup)
    (hS : regLookup st.registry S = some s0)
    (hview : s0.group = some gid)
    (hgid : get_group_id st.db gname = .ok gid)
    (hsend : send_message st.db gname S content = .ok (db', parts)) :
    (∀ p ∈ (process_message (.SendMessage content gname) st (some S) o).2.2.2,
       p.2 = ProtocolMessage.ReloadMessages
         ((get_recent_messages db' gname 20).toOption.getD [])) ∧
    (∀ u sess, (u, sess) ∈ st.registry →
       (((sess.sock, ProtocolMessage.ReloadMessages
            ((get_recent_messages db' gname 20).toOption.getD [])) ∈
          (process_message (.SendMessage content gname) st (some S) o).2.2.2) ↔
        (sess.group = some gid ∧ u ≠ S))) := by
  have heq : (process_message (.SendMessage content gname) st (some S) o).2.2.2 =
      (fanoutTargets st.registry gid S).map
        (fun e => (e.2.sock, ProtocolMessage.ReloadMessages
          ((get_recent_messages db' gname 20).toOption.getD []))) := by
    simp only [process_message, hgid, hsend]
  rw [heq]
  constructor
  · intro p hp
    rcases List.mem_map.mp hp with ⟨e, _, rfl⟩
    rfl
  · intro u sess hmem
    constructor
    · intro hin
      rcases List.mem_map.mp hin with ⟨e, hef, heq2⟩
      rcases List.mem_filter.mp hef with ⟨heR, hcond⟩
      have hsk : e.2.sock = sess.sock := by
        have := congrArg Prod.fst heq2
        simpa using this
      have hee : e = (u, sess) :=
        List.inj_on_of_nodup_map hsock heR hmem hsk
      rw [hee] at hcond
      simp only [Bool.and_eq_true, beq_iff_eq, Bool.not_eq_true',
        beq_eq_false_iff_ne] at hcond
      exact hcond
    · rintro ⟨h1, h2⟩
      refine List.mem_map.mpr ⟨(u, sess), List.mem_filter.mpr ⟨hmem, ?_⟩, rfl⟩
      simp [fanoutTargets, h1, h2]

/-- C1 witness: `alice` (socket 1) sends `hi` to `team`; exactly `bob`'s
session (socket 2, viewing `g1`) receives the reload, `carl` (at home) and
`alice` herself do not. -/
theorem C1_witness :
    (∀ p ∈ (process_message (.SendMessage ("hi") ("team")) stEx
        (some ("u1")) 1).2.2.2,
       p.2 = ProtocolMessage.ReloadMessages
         ((get_recent_messages dbExSent ("team") 20).toOption.getD [])) ∧
    (∀ u sess, (u, sess) ∈ stEx.registry →
       (((sess.sock, ProtocolMessage.ReloadMessages
            ((get_recent_messages dbExSent ("team") 20).toOption.getD [])) ∈
          (process_message (.SendMessage ("hi") ("team")) stEx
            (some ("u1")) 1).2.2.2) ↔
        (sess.group = some ("g1") ∧ u ≠ ("u1")))) :=
  C1_fanout_exact_recipients stEx ("u1") ("team") ("g1") ("hi") 1 dbExSent
    partsEx ⟨1, some ("g1")⟩ (by decide) (by rfl) (by rfl) (by rfl) (by rfl)

/-- C3: a successful `get_recent_messages` returns at most `n` messages —
exactly `min n (total messages of the group)` of them, so the window is
full whenever the group has at least `n` messages — in ascending timestamp
order, and they dominate (are no older than) every message of the group
left out of the window: the window is the `n` most recent messages. -/
theorem C3_recent_window_order
    (db : Db) (gname : String) (n : Nat) (msgs : List ChatMessage)
    (h : get_recent_messages db gname n = .ok msgs) :
    msgs.length ≤ n ∧
    msgs.Pairwise (fun a b => a.timestamp ≤ b.timestamp) ∧
    ∃ gid rest, findGroupId db gname = some gid ∧
      msgs.length = min n (joinedRows db gid).length ∧
      (joinedRows db gid).Perm (msgs ++ rest) ∧
      ∀ a ∈ msgs, ∀ b ∈ rest, b.timestamp ≤ a.timestamp := by
  rcases hfg : findGroupId db gname with _ | gid
  · simp only [get_recent_messages, hfg] at h
    exact Except.noConfusion h
  · simp only [get_recent_messages, hfg] at h
    injection h with h'
    subst h'
    have hs : (List.insertionSort recentOrd (joinedRows db gid)).Pairwise
        recentOrd := List.sorted_insertionSort recentOrd _
    refine ⟨?_, ?_, gid,
      (List.insertionSort recentOrd (joinedRows db gid)).drop n, rfl, ?_, ?_,
      ?_⟩
    · rw [List.length_reverse, List.length_take]
      exact inf_le_left
    · exact List.pairwise_reverse.mpr
        (List.Pairwise.sublist (List.take_sublist n _) hs)
    · rw [List.length_reverse, List.length_take,
        (List.perm_insertionSort recentOrd (joinedRows db gid)).length_eq]
    · refine (List.perm_insertionSort recentOrd (joinedRows db gid)).symm.trans
        ?_
      conv_lhs => rw [← List.take_append_drop n
        (List.insertionSort recentOrd (joinedRows db gid))]
      exact List.Perm.append_right _ (List.reverse_perm _).symm
    · have hsplit : List.insertionSort recentOrd (joinedRows db gid) =
          (List.insertionSort recentOrd (joinedRows db gid)).take n ++
            (List.insertionSort recentOrd (joinedRows db gid)).drop n :=
        (List.take_append_drop n _).symm
      have hd := (List.pairwise_append.mp (hsplit ▸ hs)).2.2
      intro a ha b hb
      exact hd a (List.mem_reverse.mp ha) b hb

/-- C3 witness: in `dbEx` (`team` holds messages with timestamps 5, 3, 9),
asking for the 2 most recent yields a full window of exactly
`min 2 3 = 2` messages, timestamps 5 then 9 in ascending order, dominating
the excluded timestamp 3. -/
theorem C3_witness :
    recentEx.length ≤ 2 ∧
    recentEx.Pairwise (fun a b => a.timestamp ≤ b.timestamp) ∧
    ∃ gid rest, findGroupId dbEx ("team") = some gid ∧
      recentEx.length = min 2 (joinedRows dbEx gid).length ∧
      (joinedRows dbEx gid).Perm (recentEx ++ rest) ∧
      ∀ a ∈ recentEx, ∀ b ∈ rest, b.timestamp ≤ a.timestamp :=
  C3_recent_window_order dbEx ("team") 2 recentEx (by rfl)

/-- C5 counterexample: a line that fails to decode produces NO output at
all — in particular no `Error` response is written back to the caller,
refuting the claimed generic "invalid message" reply. -/
theorem C5_counterexample :
    (handle_client (fun _ => none) 0 (["garbage"]) ⟨dbEmpty, []⟩ none).1 =
      [] ∧
    ¬ ∃ emsg tail,
        (handle_client (fun _ => none) 0 (["garbage"]) ⟨dbEmpty, []⟩ none).1 =
          Out.own (ProtocolMessage.Error emsg) :: tail := by
  refine ⟨rfl, ?_⟩
  rintro ⟨emsg, tail, h⟩
  rw [show (handle_client (fun _ => none) 0 (["garbage"]) ⟨dbEmpty, []⟩
    none).1 = [] from rfl] at h
  exact List.noConfusion h

/-- C5 amended: a line that fails to decode is silently skipped — no
response of any kind is emitted for it — and the handler continues with the
remaining input unchanged. -/
theorem C5_decode_failure_silently_skipped
    (dec : String → Option ProtocolMessage) (o : Nat) (line : String)
    (rest : List String) (st : SrvState) (cur : Option String)
    (h : dec line = none) :
    handle_client dec o (line :: rest) st cur =
      handle_client dec o rest st cur := by
  simp only [handle_client, h]

/-- C5 witness: with a decoder that rejects `bad`, the handler treats
`[bad, l]` exactly as `[l]`. -/
theorem C5_witness :
    handle_client decL 0 (["bad", "l"]) ⟨dbEmpty, []⟩ none =
      handle_client decL 0 (["l"]) ⟨dbEmpty, []⟩ none :=
  C5_decode_failure_silently_skipped decL 0 ("bad") (["l"]) ⟨dbEmpty, []⟩
    none (by rfl)

/-- C6 counterexample: after a `Quit` the handler goes on reading and
answering further requests on the same connection (here a `ListUsers` after
the `Goodbye!` acknowledgment), refuting "the handler reads no further
requests on that connection". -/
theorem C6_counterexample :
    ¬ ∀ (dec : String → Option ProtocolMessage) (o : Nat) (line : String)
        (rest : List String) (st : SrvState) (cur : Option String),
        dec line = some ProtocolMessage.Quit →
        (handle_client dec o (line :: rest) st cur).1 =
          (handle_client dec o ([line]) st cur).1 := by
  intro hclaim
  exact absurd (hclaim decQL 0 ("q") (["l"]) ⟨dbEmpty, []⟩ none (by rfl))
    (by decide)

/-- C6 amended: a `Quit` from an authenticated session removes the session
from the registry, clears the authentication state and sends the `Goodbye!`
acknowledgment, but the handler keeps reading: processing continues on the
remaining input (the connection closes only on client disconnect). -/
theorem C6_quit_removes_session_but_loop_continues
    (dec : String → Option ProtocolMessage) (o : Nat) (line : String)
    (rest : List String) (st : SrvState) (uid : String)
    (h : dec line = some ProtocolMessage.Quit) :
    handle_client dec o (line :: rest) st (some uid) =
      (Out.own (.Ok ("Goodbye!")) ::
         (handle_client dec o rest ⟨st.db, regRemove st.registry uid⟩ none).1,
       (handle_client dec o rest ⟨st.db, regRemove st.registry uid⟩
         none).2) := by
  simp only [handle_client, h, process_message, List.map_nil,
    List.nil_append, List.singleton_append]

/-- C6 witness: `Quit` then `ListUsers` on one connection — the session is
removed, `Goodbye!` is acknowledged, and the `ListUsers` that follows is
still read and processed. -/
theorem C6_witness :
    handle_client decQL 0 (["q", "l"]) ⟨dbEmpty, regQuit⟩ (some ("u1")) =
      (Out.own (.Ok ("Goodbye!")) ::
         (handle_client decQL 0 (["l"]) ⟨dbEmpty, regRemove regQuit ("u1")⟩
           none).1,
       (handle_client decQL 0 (["l"]) ⟨dbEmpty, regRemove regQuit ("u1")⟩
         none).2) :=
  C6_quit_removes_session_but_loop_continues decQL 0 ("q") (["l"])
    ⟨dbEmpty, regQuit⟩ ("u1") (by rfl)

/-- Helper: a block of socket writes followed by the guard drop, entered
with the lock held, contains no write performed without the lock. -/
theorem writesWhileFree_writes_then_release (ts : Registry) :
    writesWhileFree ((ts.map (fun e => FanoutEvent.write e.2.sock)) ++
      [FanoutEvent.release]) true = false := by
  induction ts with
  | nil => rfl
  | cons e t ih => simpa [writesWhileFree] using ih

/-- C7 counterexample: with one connected recipient, the fan-out trace
performs a socket write while the registry lock is held, refuting "the
registry lock is never held while a socket write is performed". -/
theorem C7_counterexample :
    ¬ ∀ (reg : Registry) (gid sender : String),
        writesWhileHeld (fanoutTrace reg gid sender) false = false := by
  intro hclaim
  exact absurd (hclaim regOneOther ("g1") ("u1")) (by decide)

/-- C7 amended: the fan-out loop iterates the locked `connected_users` map
directly — every socket write of the trace happens with the lock held
(never with it free), and whenever at least one other member is viewing the
group, some write does occur under the lock. -/
theorem C7_fanout_writes_under_lock :
    (∀ (reg : Registry) (gid sender : String),
       writesWhileFree (fanoutTrace reg gid sender) false = false) ∧
    (∀ (reg : Registry) (gid sender : String),
       (∃ e ∈ reg, e.2.group = some gid ∧ e.1 ≠ sender) →
       writesWhileHeld (fanoutTrace reg gid sender) false = true) := by
  constructor
  · intro reg gid sender
    simpa [fanoutTrace, writesWhileFree] using
      writesWhileFree_writes_then_release (fanoutTargets reg gid sender)
  · rintro reg gid sender ⟨e, he, h1, h2⟩
    have hmem : e ∈ fanoutTargets reg gid sender :=
      List.mem_filter.mpr ⟨he, by simp [h1, h2]⟩
    rcases List.exists_cons_of_ne_nil (List.ne_nil_of_mem hmem) with
      ⟨t, ts, hts⟩
    simp [fanoutTrace, hts, writesWhileHeld]

/-- C7 witness: with `bob` viewing `g1`, the trace of `alice`'s send writes
only under the lock, and does write under it. -/
theorem C7_witness :
    writesWhileFree (fanoutTrace regOneOther ("g1") ("u1")) false = false ∧
    writesWhileHeld (fanoutTrace regOneOther ("g1") ("u1")) false = true :=
  ⟨C7_fanout_writes_under_lock.1 regOneOther ("g1") ("u1"),
   C7_fanout_writes_under_lock.2 regOneOther ("g1") ("u1")
     ⟨("u2", ⟨2, some ("g1")⟩), by decide⟩⟩

end Ruggine
